import Mathlib

/-!
Shallow embedding of the authentication / account-verification subsystem of the
e-commerce backend: the mongoose account models with their pre-save password
hooks (src/model/user.js, src/model/shop.js), the user and shop controllers
(src/controller/user.js, src/controller/shop.js: create, resend-otp,
activation, login), and the auth middleware (isAuthenticated / isSeller /
isAdmin in src/middleware/auth.js).

External collaborators (bcryptjs, jsonwebtoken, the mail transport and the
document store) are modelled by concrete executable Lean functions exposing
exactly the behaviour the handlers rely on; the handlers themselves are
translated statement by statement from the JavaScript source, with JavaScript
truthiness of optional request fields made explicit.
-/

/-- Uniform error envelope produced by `new ErrorHandler(message, statusCode)`
and forwarded through `next(...)` by every handler. -/
structure ErrResp where
  message : String
  statusCode : Nat
deriving Repr, DecidableEq

/-- A persisted account document (the fields of userSchema / shopSchema that
the authentication workflow reads or writes).  `password` holds the stored
hash; `verificationOtp` / `verificationOtpExpiry` are `none` when the
corresponding schema field is `undefined`. -/
structure Account where
  id : Nat
  email : String
  password : String
  role : String
  isVerified : Bool
  verificationOtp : Option String
  verificationOtpExpiry : Option Int
deriving Repr, DecidableEq

/-- Model of `bcrypt.hash(pw, 10)`: a deterministic injective tagging of the
plaintext.  What the handlers rely on is that hashing is injective and that a
hash is never equal to the plaintext it was derived from. -/
def bcryptHash (pw : String) : String := "$2b$10$" ++ pw

/-- Model of `bcrypt.compare(entered, stored)` as used by
`comparePassword`: recompute the hash of the entered password and compare
with the stored digest. -/
def comparePassword (entered stored : String) : Bool :=
  bcryptHash entered == stored

/-- Model of a signed JWT produced by `jwt.sign({ id }, secret, { expiresIn })`:
the payload id, issue and expiry instants, and the signature, which binds the
token to the signing secret. -/
structure Jwt where
  payloadId : Nat
  iat : Int
  exp : Int
  sig : String
deriving Repr, DecidableEq

/-- `getJwtToken` on both schemas: `jwt.sign({ id: this._id },
JWT_SECRET_KEY, { expiresIn: JWT_EXPIRES })`. -/
def jwtSign (id : Nat) (secret : String) (now lifetime : Int) : Jwt :=
  { payloadId := id, iat := now, exp := now + lifetime, sig := secret }

/-- Failure modes of `jwt.verify`. -/
inductive JwtError where
  | invalidSignature
  | expired
deriving Repr, DecidableEq

/-- Model of `jwt.verify(token, secret)` at instant `now`: rejects a token
whose signature was not produced with `secret`, then a token whose embedded
expiry has elapsed, and otherwise yields the embedded account id. -/
def jwtVerify (t : Jwt) (secret : String) (now : Int) : Except JwtError Nat :=
  if t.sig ≠ secret then .error .invalidSignature
  else if t.exp < now then .error .expired
  else .ok t.payloadId

/-- JavaScript truthiness of an optional string request field: `undefined`
and `""` are falsy. -/
def jsTruthy : Option String → Bool
  | none => false
  | some s => s != ""

/-- JavaScript `x < now` where `x` may be `undefined`
(`undefined < now` is `false`, via NaN). -/
def jsNumLt (x : Option Int) (bound : Int) : Bool :=
  match x with
  | some v => v < bound
  | none => false

/-- `Model.findOne({ email })` over the document store. -/
def findOneByEmail (store : List Account) (email : String) : Option Account :=
  store.find? (fun a => a.email == email)

/-- `Model.findById(id)` over the document store. -/
def findById (store : List Account) (id : Nat) : Option Account :=
  store.find? (fun a => a.id == id)

/-- `doc.save()`: persist the (modified) document under its `_id`. -/
def saveAccount (store : List Account) (doc : Account) : List Account :=
  store.map (fun a => if a.id == doc.id then doc else a)

/-- userSchema.pre("save") (src/model/user.js lines 91-97): when the password
path was not modified the hook does `return next()`, leaving the stored hash
untouched; otherwise it replaces the password with its bcrypt hash. -/
def userPreSave (doc : Account) (passwordModified : Bool) : Account :=
  if !passwordModified then doc
  else { doc with password := bcryptHash doc.password }

/-- shopSchema.pre("save") (shop model, lines 85-90): the not-modified branch
calls `next()` without returning, so control falls through to
`this.password = await bcrypt.hash(this.password, 10)` — but on every
non-password shop save the document was loaded WITHOUT its password (the
schema marks it `select: false` and the saving handlers use plain
`findOne`/`findById`), so `bcrypt.hash(undefined, 10)` rejects before any
assignment while the save, already advanced by `next()`, persists a delta
that never touches the password: the stored hash is unchanged.  When the
password path IS modified (document creation, password change) the field is
present and the hash is applied. -/
def shopPreSave (doc : Account) (passwordModified : Bool) : Account :=
  if !passwordModified then doc
  else { doc with password := bcryptHash doc.password }

/-- Outcome of a controller handler: an error forwarded to `next`, a success
response that carries a freshly minted session token (`sendToken` /
`sendShopToken`), or a plain success message. -/
inductive HandlerResult where
  | err (e : ErrResp)
  | okToken (acct : Account) (token : Jwt)
  | okMessage (message : String)
deriving Repr, DecidableEq

/-- POST /activation for end users (src/controller/user.js lines 159-196). -/
def userActivation (secret : String) (jwtLife : Int) (store : List Account)
    (email otp : Option String) (now : Int) : List Account × HandlerResult :=
  if !jsTruthy email || !jsTruthy otp then
    (store, .err ⟨"Email and OTP are required", 400⟩)
  else
    match findOneByEmail store (email.getD "") with
    | none => (store, .err ⟨"User not found", 400⟩)
    | some user =>
      if user.isVerified then
        (store, .err ⟨"User already verified", 400⟩)
      else if user.verificationOtp != otp
          || jsNumLt user.verificationOtpExpiry now then
        (store, .err ⟨"Invalid or expired OTP", 400⟩)
      else
        let updated := { user with
          isVerified := true
          verificationOtp := none
          verificationOtpExpiry := none }
        let saved := userPreSave updated false
        (saveAccount store saved,
         .okToken saved (jwtSign saved.id secret now jwtLife))

/-- POST /activation for shops (src/controller/shop.js lines 96-127); the
`shop.save()` runs the shop pre-save hook with the password path unmodified. -/
def shopActivation (secret : String) (jwtLife : Int) (store : List Account)
    (email otp : Option String) (now : Int) : List Account × HandlerResult :=
  if !jsTruthy email || !jsTruthy otp then
    (store, .err ⟨"Email and OTP are required", 400⟩)
  else
    match findOneByEmail store (email.getD "") with
    | none => (store, .err ⟨"Shop not found", 400⟩)
    | some shop =>
      if shop.isVerified then
        (store, .err ⟨"Shop already verified", 400⟩)
      else if shop.verificationOtp != otp
          || jsNumLt shop.verificationOtpExpiry now then
        (store, .err ⟨"Invalid or expired OTP", 400⟩)
      else
        let updated := { shop with
          isVerified := true
          verificationOtp := none
          verificationOtpExpiry := none }
        let saved := shopPreSave updated false
        (saveAccount store saved,
         .okToken saved (jwtSign saved.id secret now jwtLife))

/-- POST /login-user (src/controller/user.js lines 199-230).  Login performs
no save: it only reads the account and compares the password. -/
def userLogin (secret : String) (jwtLife : Int) (store : List Account)
    (email password : Option String) (now : Int) : HandlerResult :=
  if !jsTruthy email || !jsTruthy password then
    .err ⟨"Please provide all fields!", 400⟩
  else
    match findOneByEmail store (email.getD "") with
    | none => .err ⟨"User doesn't exist!", 400⟩
    | some user =>
      if !user.isVerified then
        .err ⟨"Please verify your account first!", 400⟩
      else if !comparePassword (password.getD "") user.password then
        .err ⟨"Invalid credentials", 400⟩
      else
        .okToken user (jwtSign user.id secret now jwtLife)

/-- POST /login-shop (src/controller/shop.js lines 179-206). -/
def shopLogin (secret : String) (jwtLife : Int) (store : List Account)
    (email password : Option String) (now : Int) : HandlerResult :=
  if !jsTruthy email || !jsTruthy password then
    .err ⟨"Please provide all fields!", 400⟩
  else
    match findOneByEmail store (email.getD "") with
    | none => .err ⟨"Shop doesn't exist!", 400⟩
    | some shop =>
      if !shop.isVerified then
        .err ⟨"Please verify your shop account first!", 400⟩
      else if !comparePassword (password.getD "") shop.password then
        .err ⟨"Invalid credentials", 400⟩
      else
        .okToken shop (jwtSign shop.id secret now jwtLife)

/-- Outcome of the `sendMail` collaborator for one dispatch attempt:
delivery, or a thrown error whose `.message` the handlers forward. -/
inductive MailOutcome where
  | delivered
  | failed (message : String)
deriving Repr, DecidableEq

/-- `Math.floor(100000 + Math.random() * 900000)`: the OTP derived from one
sample `rand` of `Math.random()` (a real in `[0, 1)`, modelled in ℚ). -/
def genOtp (rand : ℚ) : ℤ :=
  ⌊(100000 : ℚ) + rand * 900000⌋

/-- POST /create-user (src/controller/user.js lines 22-106), with the mongoose
email-uniqueness probe, OTP generation, the mail dispatch attempted BEFORE
`User.create`, and the pre-save hook run on the freshly created document
(whose password path counts as modified). -/
def createUser (store : List Account) (email password role : String)
    (newId : Nat) (rand : ℚ) (now : Int) (mail : MailOutcome) :
    List Account × HandlerResult :=
  match findOneByEmail store email with
  | some _ => (store, .err ⟨"User already exists", 400⟩)
  | none =>
    let otp := toString (genOtp rand)
    let otpExpiry := now + 10 * 60 * 1000
    let user : Account :=
      { id := newId, email := email, password := password, role := role,
        isVerified := false, verificationOtp := some otp,
        verificationOtpExpiry := some otpExpiry }
    match mail with
    | .failed m => (store, .err ⟨m, 500⟩)
    | .delivered =>
      (store ++ [userPreSave user true],
       .okMessage ("Please check your email (" ++ email
         ++ ") to activate your account with the OTP!"))

/-- POST /create-shop (src/controller/shop.js lines 21-93); shops are created
with role "Seller" and go through the shop pre-save hook. -/
def createShop (store : List Account) (email password : String)
    (newId : Nat) (rand : ℚ) (now : Int) (mail : MailOutcome) :
    List Account × HandlerResult :=
  match findOneByEmail store email with
  | some _ => (store, .err ⟨"Shop with this email already exists", 400⟩)
  | none =>
    let otp := toString (genOtp rand)
    let otpExpiry := now + 10 * 60 * 1000
    let shop : Account :=
      { id := newId, email := email, password := password, role := "Seller",
        isVerified := false, verificationOtp := some otp,
        verificationOtpExpiry := some otpExpiry }
    match mail with
    | .failed m => (store, .err ⟨m, 500⟩)
    | .delivered =>
      (store ++ [shopPreSave shop true],
       .okMessage ("Please check your email (" ++ email
         ++ ") to activate your shop account with the OTP!"))

/-- A request as seen by the `isSeller` middleware: the `seller_token` cookie
and the raw `Authorization` header, each possibly absent. -/
structure SellerReq where
  seller_token : Option String
  authorization : Option String
deriving Repr, DecidableEq

/-- The Bearer fallback of `isSeller`:
`req.headers.authorization?.startsWith("Bearer ")` and then
`req.headers.authorization.split(" ")[1]`. -/
def bearerToken (authorization : Option String) : Option String :=
  match authorization with
  | none => none
  | some h =>
    if "Bearer ".data.isPrefixOf h.data then
      some (((h.data.splitOn ' ').map (fun l => String.mk l)).getD 1 "")
    else none

/-- The token `isSeller` ends up with: the cookie when truthy, otherwise the
Bearer-header fallback. -/
def resolvedSellerToken (req : SellerReq) : Option String :=
  if jsTruthy req.seller_token then req.seller_token
  else bearerToken req.authorization

/-- Outcome of the `isSeller` middleware: an error forwarded to `next(err)`,
or `next()` with `req.seller` populated and the token attached
(`req.seller.token = token`). -/
inductive SellerOutcome where
  | err (e : ErrResp)
  | proceed (seller : Account) (token : String)
deriving Repr, DecidableEq

/-- The `isSeller` middleware (src/middleware/auth.js lines 28-61),
parameterised over the `jwt.verify` collaborator `verify` (whose `.error`
carries the raw verification failure, which the middleware never echoes). -/
def isSeller (verify : String → Except String Nat) (store : List Account)
    (req : SellerReq) : SellerOutcome :=
  let tok := resolvedSellerToken req
  if !jsTruthy tok then
    .err ⟨"Please login as a seller to continue", 401⟩
  else
    match verify (tok.getD "") with
    | .error _ => .err ⟨"Invalid or expired seller token", 401⟩
    | .ok id =>
      match findById store id with
      | none => .err ⟨"Seller not found", 404⟩
      | some seller =>
        if !seller.isVerified then
          .err ⟨"Please verify your shop account", 403⟩
        else
          .proceed seller (tok.getD "")

/-- The `isAdmin` role gate (src/middleware/auth.js lines 63-75):
`roles.includes(req.user?.role)` with the 403 message
`${req.user?.role || "User"} is not allowed to access this resource!`. -/
def isAdmin (roles : List String) (userRole : Option String) :
    Except ErrResp Unit :=
  if !(match userRole with
       | some r => roles.contains r
       | none => false) then
    .error ⟨(match userRole with
             | some r => if r != "" then r else "User"
             | none => "User") ++ " is not allowed to access this resource!",
            403⟩
  else .ok ()

/-- The in-place mutation performed by both activation handlers on success:
`isVerified = true; verificationOtp = undefined; verificationOtpExpiry =
undefined`. -/
def activatedAccount (u : Account) : Account :=
  { u with isVerified := true, verificationOtp := none,
           verificationOtpExpiry := none }

/-- A concrete pending-otp end-user document, as left by a successful
`create-user` (password already hashed by the pre-save hook). -/
def samplePendingUser : Account :=
  { id := 1, email := "alice@example.com", password := bcryptHash "secret1",
    role := "user", isVerified := false, verificationOtp := some "123456",
    verificationOtpExpiry := some 1000000 }

/-- A concrete pending-otp shop document. -/
def samplePendingShop : Account :=
  { id := 2, email := "shop@example.com", password := bcryptHash "shopsecret",
    role := "Seller", isVerified := false, verificationOtp := some "654321",
    verificationOtpExpiry := some 1000000 }

/-- A concrete verified end-user document (OTP fields cleared). -/
def sampleVerifiedUser : Account :=
  { id := 3, email := "bob@example.com", password := bcryptHash "hunter22",
    role := "user", isVerified := true, verificationOtp := none,
    verificationOtpExpiry := none }

/-- A concrete verified shop document. -/
def sampleVerifiedShop : Account :=
  { id := 4, email := "store@example.com", password := bcryptHash "storepw1",
    role := "Seller", isVerified := true, verificationOtp := none,
    verificationOtpExpiry := none }

theorem bcryptHash_injective : Function.Injective bcryptHash := by
  intro x y h
  have hd : (bcryptHash x).data = (bcryptHash y).data := by rw [h]
  simp only [bcryptHash, String.data_append] at hd
  exact String.ext (List.append_cancel_left hd)

theorem bcryptHash_ne_self (s : String) : bcryptHash s ≠ s := by
  intro h
  have hlen : (bcryptHash s).length = s.length := by rw [h]
  rw [bcryptHash, String.length_append] at hlen
  have h7 : ("$2b$10$" : String).length = 7 := rfl
  omega

/-- After `doc.save()` of a document whose `_id` and `email` agree with the
account that `findOne({ email })` located, the same `findOne` query returns
the saved document (ids are unique in the store). -/
theorem findOneByEmail_saveAccount (store : List Account) (u u' : Account)
    (hfind : findOneByEmail store u.email = some u)
    (huniq : ∀ a ∈ store, a.id = u.id → a = u)
    (hid : u'.id = u.id) (hem : u'.email = u.email) :
    findOneByEmail (saveAccount store u') u.email = some u' := by
  induction store with
  | nil => simp [findOneByEmail] at hfind
  | cons a rest ih =>
    by_cases ha : a.email = u.email
    · have hau : a = u := by
        simpa [findOneByEmail, List.find?_cons_of_pos, ha] using hfind
      subst hau
      simp [findOneByEmail, saveAccount, hid, hem]
    · have hfind' : findOneByEmail rest u.email = some u := by
        simpa [findOneByEmail, List.find?_cons_of_neg, ha] using hfind
      have hane : a.id ≠ u.id := by
        intro hidEq
        exact ha (by rw [huniq a (by simp) hidEq])
      have huniq' : ∀ b ∈ rest, b.id = u.id → b = u := by
        intro b hb
        exact huniq b (by simp [hb])
      have := ih hfind' huniq'
      simpa [findOneByEmail, saveAccount, hid, hane, ha, hem] using this

/-- C1: for every pending-otp account (end-user or shop), `POST /activation`
with the stored OTP at an instant no later than the stored expiry succeeds,
persists the document with `isVerified = true` and both OTP fields cleared,
and a second activation call for the same account with the same OTP then
fails with the "already verified" error (the spec's `AlreadyVerified`,
status 400), for both variants. -/
theorem C1_activate_success_then_alreadyVerified
    (secret secret₂ : String) (jwtLife jwtLife₂ : Int)
    (store : List Account) (u : Account) (c : String) (e now now₂ : Int)
    (hfind : findOneByEmail store u.email = some u)
    (huniq : ∀ a ∈ store, a.id = u.id → a = u)
    (hnv : u.isVerified = false)
    (hotp : u.verificationOtp = some c)
    (hexp : u.verificationOtpExpiry = some e)
    (hlive : now ≤ e)
    (hem : u.email ≠ "") (hc : c ≠ "") :
    (userActivation secret jwtLife store (some u.email) (some c) now
        = (saveAccount store (activatedAccount u),
           .okToken (activatedAccount u) (jwtSign u.id secret now jwtLife))
      ∧ (activatedAccount u).isVerified = true
      ∧ (activatedAccount u).verificationOtp = none
      ∧ (activatedAccount u).verificationOtpExpiry = none
      ∧ userActivation secret₂ jwtLife₂
          (saveAccount store (activatedAccount u)) (some u.email) (some c) now₂
          = (saveAccount store (activatedAccount u),
             .err ⟨"User already verified", 400⟩))
    ∧ (shopActivation secret jwtLife store (some u.email) (some c) now
        = (saveAccount store (shopPreSave (activatedAccount u) false),
           .okToken (shopPreSave (activatedAccount u) false)
             (jwtSign u.id secret now jwtLife))
      ∧ (shopPreSave (activatedAccount u) false).isVerified = true
      ∧ (shopPreSave (activatedAccount u) false).verificationOtp = none
      ∧ (shopPreSave (activatedAccount u) false).verificationOtpExpiry = none
      ∧ shopActivation secret₂ jwtLife₂
          (saveAccount store (shopPreSave (activatedAccount u) false))
          (some u.email) (some c) now₂
          = (saveAccount store (shopPreSave (activatedAccount u) false),
             .err ⟨"Shop already verified", 400⟩)) := by
  have hnotlt : ¬ (e < now) := not_lt.mpr hlive
  have hfindU : findOneByEmail (saveAccount store (activatedAccount u)) u.email
      = some (activatedAccount u) :=
    findOneByEmail_saveAccount store u (activatedAccount u) hfind huniq rfl rfl
  have hfindS : findOneByEmail
      (saveAccount store (shopPreSave (activatedAccount u) false)) u.email
      = some (shopPreSave (activatedAccount u) false) :=
    findOneByEmail_saveAccount store u (shopPreSave (activatedAccount u) false)
      hfind huniq rfl rfl
  refine ⟨⟨?_, rfl, rfl, rfl, ?_⟩, ⟨?_, rfl, rfl, rfl, ?_⟩⟩
  · simp [userActivation, jsTruthy, hem, hc, hfind, hnv, hotp, hexp, jsNumLt,
      hnotlt, userPreSave, activatedAccount]
  · simp only [userActivation, Option.getD_some, hfindU]
    simp [jsTruthy, hem, hc, activatedAccount]
  · simp [shopActivation, jsTruthy, hem, hc, hfind, hnv, hotp, hexp, jsNumLt,
      hnotlt, shopPreSave, activatedAccount]
  · simp only [shopActivation, Option.getD_some, hfindS]
    simp [jsTruthy, hem, hc, shopPreSave, activatedAccount]

/-- C1 applied to a concrete pending end-user document: activation with the
stored OTP before expiry succeeds, and the repeated call is rejected as
already verified. -/
theorem C1_witness :
    userActivation "k" 3600000 [samplePendingUser]
        (some samplePendingUser.email) (some "123456") 500
      = (saveAccount [samplePendingUser] (activatedAccount samplePendingUser),
         .okToken (activatedAccount samplePendingUser)
           (jwtSign samplePendingUser.id "k" 500 3600000))
    ∧ userActivation "k" 3600000
        (saveAccount [samplePendingUser] (activatedAccount samplePendingUser))
        (some samplePendingUser.email) (some "123456") 600
      = (saveAccount [samplePendingUser] (activatedAccount samplePendingUser),
         .err ⟨"User already verified", 400⟩) := by
  have h := C1_activate_success_then_alreadyVerified "k" "k" 3600000 3600000
    [samplePendingUser] samplePendingUser "123456" 1000000 500 600
    (by decide) (by decide) (by decide) (by decide) (by decide) (by decide)
    (by decide) (by decide)
  exact ⟨h.1.1, h.1.2.2.2.2⟩

/-- C2: for every pending-otp account (either variant), activation with a
supplied OTP different from the stored one fails with "Invalid or expired
OTP" (400) at every instant, and activation with the stored OTP after the
stored expiry has passed fails the same way; in both cases the store — and
hence the account's verification state and OTP fields — is unchanged.
(A supplied OTP must be non-empty: an empty string is falsy and is rejected
earlier as missing input.) -/
theorem C2_activation_invalid_or_expired_otp
    (secret : String) (jwtLife : Int) (store : List Account) (u : Account)
    (c : String) (e : Int)
    (hfind : findOneByEmail store u.email = some u)
    (hnv : u.isVerified = false)
    (hotp : u.verificationOtp = some c)
    (hexp : u.verificationOtpExpiry = some e)
    (hem : u.email ≠ "") :
    (∀ o : String, o ≠ "" → o ≠ c → ∀ now : Int,
        userActivation secret jwtLife store (some u.email) (some o) now
          = (store, .err ⟨"Invalid or expired OTP", 400⟩)
      ∧ shopActivation secret jwtLife store (some u.email) (some o) now
          = (store, .err ⟨"Invalid or expired OTP", 400⟩))
    ∧ (∀ now : Int, e < now → c ≠ "" →
        userActivation secret jwtLife store (some u.email) (some c) now
          = (store, .err ⟨"Invalid or expired OTP", 400⟩)
      ∧ shopActivation secret jwtLife store (some u.email) (some c) now
          = (store, .err ⟨"Invalid or expired OTP", 400⟩)) := by
  constructor
  · intro o ho hoc now
    have hne : (some c : Option String) ≠ some o := by
      intro h
      exact hoc (Option.some.inj h).symm
    constructor
    · simp [userActivation, jsTruthy, hem, ho, hfind, hnv, hotp, hne]
    · simp [shopActivation, jsTruthy, hem, ho, hfind, hnv, hotp, hne]
  · intro now hlt hc
    constructor
    · simp [userActivation, jsTruthy, hem, hc, hfind, hnv, hotp, hexp,
        jsNumLt, hlt]
    · simp [shopActivation, jsTruthy, hem, hc, hfind, hnv, hotp, hexp,
        jsNumLt, hlt]

/-- C2 applied concretely: the wrong OTP "000000" is rejected while the
account is live, and the right OTP "123456" is rejected once the expiry
(1000000) has passed; the store is untouched in both cases. -/
theorem C2_witness :
    userActivation "k" 3600000 [samplePendingUser]
        (some samplePendingUser.email) (some "000000") 500
      = ([samplePendingUser], .err ⟨"Invalid or expired OTP", 400⟩)
    ∧ userActivation "k" 3600000 [samplePendingUser]
        (some samplePendingUser.email) (some "123456") 2000000
      = ([samplePendingUser], .err ⟨"Invalid or expired OTP", 400⟩) := by
  have h := C2_activation_invalid_or_expired_otp "k" 3600000
    [samplePendingUser] samplePendingUser "123456" 1000000
    (by decide) (by decide) (by decide) (by decide) (by decide)
  exact ⟨(h.1 "000000" (by decide) (by decide) 500).1,
         (h.2 2000000 (by decide) (by decide)).1⟩

/-- C3: for both schema variants, a save whose password path was not
modified leaves the stored hash unchanged (the user hook returns from
`next()`; the shop hook falls through, but `bcrypt.hash` receives the
unselected — hence undefined — password and rejects after `next()` has
already advanced the save, so nothing is assigned), while a save with the
password modified — document creation or a password change — replaces the
field with its bcrypt hash, which is never the plaintext itself. -/
theorem C3_password_hash_stable_unless_modified :
    (∀ doc : Account, (userPreSave doc false).password = doc.password)
    ∧ (∀ doc : Account, (shopPreSave doc false).password = doc.password)
    ∧ (∀ doc : Account,
        (userPreSave doc true).password = bcryptHash doc.password
        ∧ (userPreSave doc true).password ≠ doc.password)
    ∧ (∀ doc : Account,
        (shopPreSave doc true).password = bcryptHash doc.password
        ∧ (shopPreSave doc true).password ≠ doc.password) := by
  refine ⟨fun doc => rfl, fun doc => rfl,
          fun doc => ⟨rfl, ?_⟩, fun doc => ⟨rfl, ?_⟩⟩
  · exact bcryptHash_ne_self doc.password
  · exact bcryptHash_ne_self doc.password

/-- C4: login for an unverified account (either variant) fails with the
"please verify" error (the spec's `NotVerified`, 400) for every non-empty
supplied password; the password comparison is never reached. -/
theorem C4_login_unverified_fails_notVerified
    (secret : String) (jwtLife : Int) (store : List Account) (u : Account)
    (now : Int)
    (hfind : findOneByEmail store u.email = some u)
    (hnv : u.isVerified = false)
    (hem : u.email ≠ "") :
    ∀ password : String, password ≠ "" →
      userLogin secret jwtLife store (some u.email) (some password) now
        = .err ⟨"Please verify your account first!", 400⟩
      ∧ shopLogin secret jwtLife store (some u.email) (some password) now
        = .err ⟨"Please verify your shop account first!", 400⟩ := by
  intro pw hpw
  constructor
  · simp [userLogin, jsTruthy, hem, hpw, hfind, hnv]
  · simp [shopLogin, jsTruthy, hem, hpw, hfind, hnv]

/-- C4 applied concretely: the pending user is refused login both with the
correct password and with a wrong one, with the same `NotVerified` error. -/
theorem C4_witness :
    userLogin "k" 3600000 [samplePendingUser]
        (some samplePendingUser.email) (some "secret1") 500
      = .err ⟨"Please verify your account first!", 400⟩
    ∧ userLogin "k" 3600000 [samplePendingUser]
        (some samplePendingUser.email) (some "wrongpass") 500
      = .err ⟨"Please verify your account first!", 400⟩ := by
  have h := C4_login_unverified_fails_notVerified "k" 3600000
    [samplePendingUser] samplePendingUser 500
    (by decide) (by decide) (by decide)
  exact ⟨(h "secret1" (by decide)).1, (h "wrongpass" (by decide)).1⟩

/-- C5: for every verified account (either variant), login with the correct
email and any non-empty password whose hash does not match the stored digest
fails with "Invalid credentials" (400); login with the registered password
succeeds and mints a bearer token whose `jwt.verify` at any instant within
its lifetime yields exactly the account id embedded at issuance. -/
theorem C5_login_credentials_and_token_roundtrip
    (secret : String) (jwtLife : Int) (store : List Account) (u : Account)
    (pw : String) (now : Int)
    (hfind : findOneByEmail store u.email = some u)
    (hv : u.isVerified = true)
    (hpw : u.password = bcryptHash pw)
    (hem : u.email ≠ "") (hpwne : pw ≠ "") :
    (∀ wrong : String, wrong ≠ "" → bcryptHash wrong ≠ u.password →
        userLogin secret jwtLife store (some u.email) (some wrong) now
          = .err ⟨"Invalid credentials", 400⟩
      ∧ shopLogin secret jwtLife store (some u.email) (some wrong) now
          = .err ⟨"Invalid credentials", 400⟩)
    ∧ (userLogin secret jwtLife store (some u.email) (some pw) now
        = .okToken u (jwtSign u.id secret now jwtLife)
      ∧ shopLogin secret jwtLife store (some u.email) (some pw) now
        = .okToken u (jwtSign u.id secret now jwtLife))
    ∧ (∀ t : Int, t ≤ now + jwtLife →
        jwtVerify (jwtSign u.id secret now jwtLife) secret t = .ok u.id) := by
  refine ⟨?_, ⟨?_, ?_⟩, ?_⟩
  · intro wrong hw hwne
    constructor
    · simp [userLogin, jsTruthy, hem, hw, hfind, hv, comparePassword, hwne]
    · simp [shopLogin, jsTruthy, hem, hw, hfind, hv, comparePassword, hwne]
  · simp [userLogin, jsTruthy, hem, hpwne, hfind, hv, comparePassword, hpw]
  · simp [shopLogin, jsTruthy, hem, hpwne, hfind, hv, comparePassword, hpw]
  · intro t ht
    simp [jwtVerify, jwtSign, not_lt.mpr ht]

/-- C5 applied concretely: the verified user rejects a wrong password,
accepts the registered one, and the minted token verifies back to the same
account id. -/
theorem C5_witness :
    userLogin "k" 3600000 [sampleVerifiedUser]
        (some sampleVerifiedUser.email) (some "wrongpass") 500
      = .err ⟨"Invalid credentials", 400⟩
    ∧ userLogin "k" 3600000 [sampleVerifiedUser]
        (some sampleVerifiedUser.email) (some "hunter22") 500
      = .okToken sampleVerifiedUser (jwtSign sampleVerifiedUser.id "k" 500 3600000)
    ∧ jwtVerify (jwtSign sampleVerifiedUser.id "k" 500 3600000) "k" 600
      = .ok sampleVerifiedUser.id := by
  have h := C5_login_credentials_and_token_roundtrip "k" 3600000
    [sampleVerifiedUser] sampleVerifiedUser "hunter22" 500
    (by decide) (by decide) (by decide) (by decide) (by decide)
  exact ⟨(h.1 "wrongpass" (by decide) (by decide)).1, h.2.1.1,
         h.2.2 600 (by decide)⟩

/-- C6: when the email is not yet taken and the OTP mail dispatch throws, the
registration handler (either variant) forwards the mail error with status 500
(the spec's `DeliveryFailed`) and the store is exactly the one it started
with: no account document is created, because `Model.create` is only reached
after `sendMail` has succeeded. -/
theorem C6_register_mail_failure_creates_nothing
    (store : List Account) (email password role : String) (newId : Nat)
    (rand : ℚ) (now : Int) (m : String)
    (hfree : findOneByEmail store email = none) :
    createUser store email password role newId rand now (.failed m)
      = (store, .err ⟨m, 500⟩)
    ∧ createShop store email password newId rand now (.failed m)
      = (store, .err ⟨m, 500⟩) := by
  constructor
  · simp [createUser, hfree]
  · simp [createShop, hfree]

/-- C6 applied concretely: a failed dispatch leaves an empty store empty. -/
theorem C6_witness :
    createUser [] "alice@example.com" "secret1" "user" 1 0 0
        (.failed "SMTP connection refused")
      = ([], .err ⟨"SMTP connection refused", 500⟩)
    ∧ createShop [] "shop@example.com" "shopsecret" 2 0 0
        (.failed "SMTP connection refused")
      = ([], .err ⟨"SMTP connection refused", 500⟩) := by
  have h := C6_register_mail_failure_creates_nothing []
    "alice@example.com" "secret1" "user" 1 0 0 "SMTP connection refused"
    (by decide)
  have h' := C6_register_mail_failure_creates_nothing []
    "shop@example.com" "shopsecret" "user" 2 0 0 "SMTP connection refused"
    (by decide)
  exact ⟨h.1, h'.2⟩

/-- C7: a successful registration (either variant) appends exactly one
account document, with `isVerified = false`, the stored OTP equal to
`Math.floor(100000 + rand * 900000)` rendered in decimal — a value between
100000 and 999999 for every `rand` in `[0, 1)` — the OTP expiry exactly
600000 ms (10 minutes) after issuance, and the password stored as its hash. -/
theorem C7_register_success_pending_state
    (store : List Account) (email password role : String) (newId : Nat)
    (rand : ℚ) (now : Int)
    (hfree : findOneByEmail store email = none)
    (hr0 : 0 ≤ rand) (hr1 : rand < 1) :
    createUser store email password role newId rand now .delivered
      = (store ++ [{ id := newId, email := email,
                     password := bcryptHash password, role := role,
                     isVerified := false,
                     verificationOtp := some (toString (genOtp rand)),
                     verificationOtpExpiry := some (now + 600000) }],
         .okMessage ("Please check your email (" ++ email
           ++ ") to activate your account with the OTP!"))
    ∧ createShop store email password newId rand now .delivered
      = (store ++ [{ id := newId, email := email,
                     password := bcryptHash password, role := "Seller",
                     isVerified := false,
                     verificationOtp := some (toString (genOtp rand)),
                     verificationOtpExpiry := some (now + 600000) }],
         .okMessage ("Please check your email (" ++ email
           ++ ") to activate your shop account with the OTP!"))
    ∧ 100000 ≤ genOtp rand ∧ genOtp rand ≤ 999999 := by
  have hlo : (100000 : ℤ) ≤ genOtp rand := by
    rw [genOtp, Int.le_floor]
    push_cast
    nlinarith
  have hhi : genOtp rand < 1000000 := by
    rw [genOtp, Int.floor_lt]
    push_cast
    nlinarith
  refine ⟨?_, ?_, hlo, by omega⟩
  · simp [createUser, hfree, userPreSave]
  · simp [createShop, hfree, shopPreSave]

/-- C7 applied concretely with `rand = 1/2` (OTP 550000): registration into
an empty store creates one pending document with a 10-minute expiry. -/
theorem C7_witness :
    createUser [] "alice@example.com" "secret1" "user" 1 (1/2) 0 .delivered
      = ([{ id := 1, email := "alice@example.com",
            password := bcryptHash "secret1", role := "user",
            isVerified := false,
            verificationOtp := some (toString (genOtp (1/2))),
            verificationOtpExpiry := some 600000 }],
         .okMessage ("Please check your email (alice@example.com) to "
           ++ "activate your account with the OTP!"))
    ∧ 100000 ≤ genOtp (1/2) ∧ genOtp (1/2) ≤ 999999 := by
  have h := C7_register_success_pending_state [] "alice@example.com"
    "secret1" "user" 1 (1/2) 0 rfl (by norm_num) (by norm_num)
  exact ⟨h.1, h.2.2⟩

/-- C8: the `isSeller` middleware resolves its token from the `seller_token`
cookie, falling back to the Bearer Authorization header only when the cookie
is falsy; with no truthy token from either source it fails 401; when
`jwt.verify` throws — whatever the underlying error — it fails 401 with the
fixed generic message "Invalid or expired seller token"; when the verified id
matches no shop it fails 404; when the shop is unverified it fails 403; and
otherwise it proceeds, attaching the shop and the token value. -/
theorem C8_isSeller_resolution_and_failure_mapping
    (verify : String → Except String Nat) (store : List Account)
    (req : SellerReq) :
    (jsTruthy req.seller_token = true →
        resolvedSellerToken req = req.seller_token)
    ∧ (jsTruthy req.seller_token = false →
        resolvedSellerToken req = bearerToken req.authorization)
    ∧ (jsTruthy (resolvedSellerToken req) = false →
        isSeller verify store req
          = .err ⟨"Please login as a seller to continue", 401⟩)
    ∧ ∀ t : String, resolvedSellerToken req = some t → t ≠ "" →
        (∀ rawError : String, verify t = .error rawError →
            isSeller verify store req
              = .err ⟨"Invalid or expired seller token", 401⟩)
        ∧ ∀ id : Nat, verify t = .ok id →
            (findById store id = none →
              isSeller verify store req = .err ⟨"Seller not found", 404⟩)
            ∧ ∀ shop : Account, findById store id = some shop →
                (shop.isVerified = false →
                  isSeller verify store req
                    = .err ⟨"Please verify your shop account", 403⟩)
                ∧ (shop.isVerified = true →
                  isSeller verify store req = .proceed shop t) := by
  refine ⟨?_, ?_, ?_, ?_⟩
  · intro h
    simp [resolvedSellerToken, h]
  · intro h
    simp [resolvedSellerToken, h]
  · intro h
    simp [isSeller, h]
  · intro t ht htne
    have hjs : jsTruthy (resolvedSellerToken req) = true := by
      simp [ht, jsTruthy, htne]
    refine ⟨?_, ?_⟩
    · intro raw hraw
      simp [isSeller, hjs, ht, hraw, jsTruthy, htne]
    · intro id hid
      refine ⟨?_, ?_⟩
      · intro hnone
        simp [isSeller, hjs, ht, hid, hnone, jsTruthy, htne]
      · intro shop hshop
        refine ⟨?_, ?_⟩
        · intro hsv
          simp [isSeller, hjs, ht, hid, hshop, hsv, jsTruthy, htne]
        · intro hsv
          simp [isSeller, hjs, ht, hid, hshop, hsv, jsTruthy, htne]

/-- C8 applied concretely: with no cookie and a Bearer header carrying a
token that verifies to the id of a verified shop, the middleware proceeds
with that shop; with a cookie token that fails verification it returns the
generic 401; with neither source it returns the login-required 401. -/
theorem C8_witness :
    isSeller (fun s => if s = "tok1" then .ok 4 else .error "jwt malformed")
        [sampleVerifiedShop] ⟨none, some "Bearer tok1"⟩
      = .proceed sampleVerifiedShop "tok1"
    ∧ isSeller (fun s => if s = "tok1" then .ok 4 else .error "jwt malformed")
        [sampleVerifiedShop] ⟨some "bad", none⟩
      = .err ⟨"Invalid or expired seller token", 401⟩
    ∧ isSeller (fun s => if s = "tok1" then .ok 4 else .error "jwt malformed")
        [sampleVerifiedShop] ⟨none, none⟩
      = .err ⟨"Please login as a seller to continue", 401⟩ := by
  have h1 := C8_isSeller_resolution_and_failure_mapping
    (fun s => if s = "tok1" then .ok 4 else .error "jwt malformed")
    [sampleVerifiedShop] ⟨none, some "Bearer tok1"⟩
  have h2 := C8_isSeller_resolution_and_failure_mapping
    (fun s => if s = "tok1" then .ok 4 else .error "jwt malformed")
    [sampleVerifiedShop] ⟨some "bad", none⟩
  have h3 := C8_isSeller_resolution_and_failure_mapping
    (fun s => if s = "tok1" then .ok 4 else .error "jwt malformed")
    [sampleVerifiedShop] ⟨none, none⟩
  refine ⟨?_, ?_, ?_⟩
  · exact (((h1.2.2.2 "tok1" (by decide) (by decide)).2 4 (by simp)).2
      sampleVerifiedShop (by decide)).2 rfl
  · exact (h2.2.2.2 "bad" (by decide) (by decide)).1 "jwt malformed" (by simp)
  · exact h3.2.2.1 (by decide)

/-- C9: the `isAdmin` role gate, for every allow-list and every resolved
principal with a non-empty role, rejects with a 403 whose message names the
principal's actual role when that role is not in the allow-list, and
proceeds when it is. -/
theorem C9_role_gate_forbidden_names_role
    (roles : List String) (r : String) (hr : r ≠ "") :
    (roles.contains r = false →
      isAdmin roles (some r)
        = .error ⟨r ++ " is not allowed to access this resource!", 403⟩)
    ∧ (roles.contains r = true → isAdmin roles (some r) = .ok ()) := by
  constructor
  · intro h
    have h' : r ∉ roles := by simpa using h
    simp [isAdmin, h, hr, h']
  · intro h
    have h' : r ∈ roles := by simpa using h
    simp [isAdmin, h, h']

/-- C9 applied concretely: a principal with role "user" hitting a gate
configured with allow-list {"Admin"} is rejected with a 403 naming "user";
a principal with role "Admin" passes. -/
theorem C9_witness :
    isAdmin ["Admin"] (some "user")
      = .error ⟨"user is not allowed to access this resource!", 403⟩
    ∧ isAdmin ["Admin"] (some "Admin") = .ok () := by
  exact ⟨(C9_role_gate_forbidden_names_role ["Admin"] "user" (by decide)).1
           (by decide),
         (C9_role_gate_forbidden_names_role ["Admin"] "Admin" (by decide)).2
           (by decide)⟩

/-- C10 counterexample: at the concrete pending shop, an unmodified-password
save does not re-hash the stored digest, and after the activation save a
login with the originally registered password "shopsecret" yields a session
token — not the "Invalid credentials" error the claim predicts. -/
theorem C10_counterexample :
    (shopPreSave (activatedAccount samplePendingShop) false).password
      = samplePendingShop.password
    ∧ shopLogin "k" 3600000
        (saveAccount [samplePendingShop]
          (shopPreSave (activatedAccount samplePendingShop) false))
        (some samplePendingShop.email) (some "shopsecret") 600
      ≠ .err ⟨"Invalid credentials", 400⟩ := by
  constructor
  · rfl
  · decide

/-- C10 (amended): the shop pre-save hook's not-modified branch does call
`next()` without returning, but every such save carries an unselected
(undefined) password, so the fall-through `bcrypt.hash` rejects after the
save has advanced and the stored digest is unchanged; consequently, after a
shop's `Activate` succeeds, a subsequent `Login` for that shop with the
originally registered password succeeds and mints a session token. -/
theorem C10_shop_login_succeeds_after_activation
    (secret secret₂ : String) (jwtLife jwtLife₂ : Int)
    (store : List Account) (s : Account) (pw c : String) (e now now₂ : Int)
    (hfind : findOneByEmail store s.email = some s)
    (huniq : ∀ a ∈ store, a.id = s.id → a = s)
    (hnv : s.isVerified = false)
    (hpw : s.password = bcryptHash pw)
    (hotp : s.verificationOtp = some c)
    (hexp : s.verificationOtpExpiry = some e)
    (hlive : now ≤ e)
    (hem : s.email ≠ "") (hc : c ≠ "") (hpwne : pw ≠ "") :
    (∀ a : Account, (shopPreSave a false).password = a.password)
    ∧ shopActivation secret jwtLife store (some s.email) (some c) now
        = (saveAccount store (shopPreSave (activatedAccount s) false),
           .okToken (shopPreSave (activatedAccount s) false)
             (jwtSign s.id secret now jwtLife))
    ∧ shopLogin secret₂ jwtLife₂
        (saveAccount store (shopPreSave (activatedAccount s) false))
        (some s.email) (some pw) now₂
      = .okToken (shopPreSave (activatedAccount s) false)
          (jwtSign s.id secret₂ now₂ jwtLife₂) := by
  have hnotlt : ¬ (e < now) := not_lt.mpr hlive
  have hfindS : findOneByEmail
      (saveAccount store (shopPreSave (activatedAccount s) false)) s.email
      = some (shopPreSave (activatedAccount s) false) :=
    findOneByEmail_saveAccount store s (shopPreSave (activatedAccount s) false)
      hfind huniq rfl rfl
  refine ⟨fun a => rfl, ?_, ?_⟩
  · simp [shopActivation, jsTruthy, hem, hc, hfind, hnv, hotp, hexp, jsNumLt,
      hnotlt, shopPreSave, activatedAccount]
  · simp only [shopLogin, Option.getD_some, hfindS]
    simp [jsTruthy, hem, hpwne, shopPreSave, activatedAccount,
      comparePassword, hpw]

/-- C10 (amended) applied concretely: the pending shop activates
successfully and then logs in with the originally registered password
"shopsecret", receiving a session token. -/
theorem C10_witness :
    shopActivation "k" 3600000 [samplePendingShop]
        (some samplePendingShop.email) (some "654321") 500
      = (saveAccount [samplePendingShop]
           (shopPreSave (activatedAccount samplePendingShop) false),
         .okToken (shopPreSave (activatedAccount samplePendingShop) false)
           (jwtSign samplePendingShop.id "k" 500 3600000))
    ∧ shopLogin "k" 3600000
        (saveAccount [samplePendingShop]
          (shopPreSave (activatedAccount samplePendingShop) false))
        (some samplePendingShop.email) (some "shopsecret") 600
      = .okToken (shopPreSave (activatedAccount samplePendingShop) false)
          (jwtSign samplePendingShop.id "k" 600 3600000) := by
  have h := C10_shop_login_succeeds_after_activation "k" "k"
    3600000 3600000 [samplePendingShop] samplePendingShop "shopsecret"
    "654321" 1000000 500 600
    (by decide) (by decide) (by decide) (by decide) (by decide) (by decide)
    (by decide) (by decide) (by decide) (by decide)
  exact ⟨h.2.1, h.2.2⟩
